import Mathlib

/-!
# Verification of the credit lifecycle engine

A shallow embedding of the credit subsystem of the banking back-end
(`services/credit_service.go`, `services/payment_scheduler_service.go`,
`models/credit.go`, `models/payment.go`, `models/bank_account.go`,
`models/transaction.go`) together with theorems settling the frozen claims
about it.

Modelling conventions:
* Go `float64` money and rate values are modelled as `ℚ` (exact rationals);
  the float literal `1.1` of the source is modelled as `11/10`.
* Go `time.Time` values are modelled at day granularity as proleptic
  Gregorian civil dates (`GoDate`), with `dateToDays` mirroring the
  absolute-day computation of Go `time.Date` (year/month normalisation by
  floored division, cumulative month-length table, leap-day adjustment).
  `AddDate(0, m, 0)` is modelled by `addMonths`, and
  `EndDate.Sub(StartDate).Hours() / 24 / 30` truncated by Go's `int(...)`
  conversion is modelled by truncating division `Int.tdiv` on the exact day
  difference (the durations involved are whole days, exactly representable).
* The `gorm` store is modelled as an explicit state (`DBState`) of entity
  lists; `tx.Save` on a loaded row replaces the row with the same primary
  key, `tx.Create` appends; `Begin`/`Commit`/`Rollback` become explicit
  state passing where an error returns the pre-transaction state.
* `tx.Save`/`tx.Create` can fail at the storage layer; where a claim needs
  this (the scheduler), failures are injected through a `FaultModel`.
  Elsewhere storage operations are modelled as always succeeding.
-/

/-- A civil date as passed to Go `time.Date`: the month field may lie
outside 1..12 (Go normalises it), as produced by `AddDate`. -/
structure GoDate where
  year : Int
  month : Int
  day : Int
deriving DecidableEq, Repr

/-- Go leap-year test `year%4 == 0 && (year%100 != 0 || year%400 == 0)`. -/
def isLeap (y : Int) : Bool :=
  y % 4 == 0 && (y % 100 != 0 || y % 400 == 0)

/-- Days before the start of month `m` (1..12) in a non-leap year: the
`daysBefore` table of Go package `time`. -/
def daysBefore (m : Int) : Int :=
  match m with
  | 1 => 0 | 2 => 31 | 3 => 59 | 4 => 90 | 5 => 120 | 6 => 151
  | 7 => 181 | 8 => 212 | 9 => 243 | 10 => 273 | 11 => 304
  | 12 => 334 | _ => 0

/-- Days from the epoch (day 0 = January 1 of year 1) to January 1 of year
`y`, as in Go's `daysSinceEpoch`: 365 days per year plus the Gregorian
leap-day corrections. Division is floored (`Int./` is Euclidean division,
which agrees with floored division for the positive divisors used here). -/
def daysToYear (y : Int) : Int :=
  365 * (y - 1) + (y - 1) / 4 - (y - 1) / 100 + (y - 1) / 400

/-- The absolute day number of a `GoDate`, mirroring Go `time.Date`:
normalise the month by floored div/mod 12, then days-to-year plus
days-before-month plus a leap-day adjustment for March onwards, plus the
(possibly overflowing) day-of-month offset. -/
def dateToDays (d : GoDate) : Int :=
  let y := d.year + (d.month - 1) / 12
  let m := (d.month - 1) % 12 + 1
  daysToYear y + daysBefore m + (if isLeap y ∧ 3 ≤ m then 1 else 0) + (d.day - 1)

/-- Go `t.AddDate(0, m, 0)`: add `m` to the month field; the result is
normalised on use (every consumer goes through `dateToDays`). -/
def addMonths (d : GoDate) (m : Int) : GoDate :=
  { d with month := d.month + m }

/-- `a.Before(b)` / `pay_date <= now` comparisons at day granularity. -/
def dateLe (a b : GoDate) : Bool :=
  dateToDays a ≤ dateToDays b

/-- `models.CreditStatus`. -/
inductive CreditStatus where
  | ACTIVE | PAID | OVERDUE | CANCELED
deriving DecidableEq, Repr

/-- `models.PaymentStatus`. -/
inductive PaymentStatus where
  | PLANNED | PAID | OVERDUE | CANCELED
deriving DecidableEq, Repr

/-- `models.User` (the fields the credit core reads). -/
structure User where
  id : Nat
  email : String
deriving DecidableEq, Repr

/-- `models.BankAccount` (the fields the credit core reads/writes). -/
structure BankAccount where
  id : Nat
  holderId : Nat
  balance : ℚ
deriving DecidableEq, Repr

/-- `models.Credit`: note the entity has `AccountID` but no user id field. -/
structure Credit where
  id : Nat
  rate : ℚ
  accountId : Nat
  amount : ℚ
  status : CreditStatus
  startDate : GoDate
  endDate : GoDate
deriving DecidableEq, Repr

/-- `models.Payment`. -/
structure Payment where
  id : Nat
  creditId : Nat
  payDate : GoDate
  amount : ℚ
  initAmount : ℚ
  isOverdue : Bool
  status : PaymentStatus
  realPayDate : Option GoDate
deriving DecidableEq, Repr

/-- `services.TransactionType`. -/
inductive TransactionType where
  | DEPOSIT | WITHDRAW
deriving DecidableEq, Repr

/-- `models.Transaction` (append-only audit row). -/
structure Transaction where
  accountId : Nat
  amount : ℚ
  type : TransactionType
  description : String
deriving DecidableEq, Repr

/-- The persistent store visible to the credit core. -/
structure DBState where
  users : List User
  accounts : List BankAccount
  credits : List Credit
  payments : List Payment
  transactions : List Transaction
  nextCreditId : Nat
  nextPaymentId : Nat
deriving DecidableEq, Repr

/-- Zero value a gorm `Preload` leaves behind when the association row is
absent. -/
def emptyUser : User := { id := 0, email := "" }

/-- Zero value for an absent preloaded account. -/
def emptyAccount : BankAccount := { id := 0, holderId := 0, balance := 0 }

/-- Zero value for an absent preloaded credit. -/
def emptyCredit : Credit :=
  { id := 0, rate := 0, accountId := 0, amount := 0, status := .ACTIVE
  , startDate := ⟨1, 1, 1⟩, endDate := ⟨1, 1, 1⟩ }

/-- Point lookup `First(&credit, id)`. -/
def findCredit (s : DBState) (i : Nat) : Option Credit :=
  s.credits.find? (fun c => c.id == i)

/-- Point lookup `First(&account, id)`. -/
def findAccount (s : DBState) (i : Nat) : Option BankAccount :=
  s.accounts.find? (fun a => a.id == i)

/-- Point lookup of a user row (preload of `Holder`). -/
def findUser (s : DBState) (i : Nat) : Option User :=
  s.users.find? (fun u => u.id == i)

/-- Point lookup of a payment row. -/
def findPayment (s : DBState) (i : Nat) : Option Payment :=
  s.payments.find? (fun p => p.id == i)

/-- `tx.Save(&payment)`: overwrite the row with this primary key with the
in-memory struct. -/
def savePayment (s : DBState) (p : Payment) : DBState :=
  { s with payments := s.payments.map (fun q => if q.id == p.id then p else q) }

/-- `tx.Save(&credit)`. -/
def saveCredit (s : DBState) (c : Credit) : DBState :=
  { s with credits := s.credits.map (fun q => if q.id == c.id then c else q) }

/-- `tx.Save(&account)`. -/
def saveAccount (s : DBState) (a : BankAccount) : DBState :=
  { s with accounts := s.accounts.map (fun q => if q.id == a.id then a else q) }

/-- `tx.Create(&transaction)`: append the audit row. -/
def createTransaction (s : DBState) (t : Transaction) : DBState :=
  { s with transactions := s.transactions ++ [t] }

/-! ## Amortization calculator (`credit_service.go`) -/

/-- `calculateAnnuityPayment(amount, rate, months)`: the monthly payment
`amount * (monthlyRate * (1+monthlyRate)^months) / ((1+monthlyRate)^months - 1)`
with `monthlyRate = rate/12/100`.  The source computes in `float64` with
`math.Pow`; here exact rationals with integer exponentiation (`zpow`, so a
division-by-zero denominator evaluates to `0` where the float source
produces NaN/Inf).  The Go function has no error return and no special
case for a zero monthly rate or a non-positive term. -/
def calculateAnnuityPayment (amount rate : ℚ) (months : Int) : ℚ :=
  let monthlyRate := rate / 12 / 100
  let annuityCoefficient :=
    (monthlyRate * (1 + monthlyRate) ^ months) / ((1 + monthlyRate) ^ months - 1)
  amount * annuityCoefficient

/-- The month count `generatePaymentSchedule` derives from the credit's
dates: `int(credit.EndDate.Sub(credit.StartDate).Hours() / 24 / 30)`, i.e.
the exact day span divided by 30, truncated toward zero. -/
def scheduleMonths (c : Credit) : Int :=
  Int.tdiv (dateToDays c.endDate - dateToDays c.startDate) 30

/-- The loop body of `generatePaymentSchedule`: `n` iterations remaining,
`i` iterations done, `remainingAmount` threaded exactly as in the source
(the source computes `interest`/`principal` and updates `remainingAmount`
each iteration, but no Payment field depends on them). -/
def scheduleLoop (c : Credit) (annuityPayment monthlyRate : ℚ) :
    Nat → ℚ → Nat → List Payment
  | 0, _, _ => []
  | n + 1, remainingAmount, i =>
    let interest := remainingAmount * monthlyRate
    let principal := annuityPayment - interest
    let remainingAmount2 := remainingAmount - principal
    let payDate := addMonths c.startDate (Int.ofNat i + 1)
    { id := 0
    , creditId := c.id
    , payDate := payDate
    , amount := annuityPayment
    , initAmount := annuityPayment
    , isOverdue := false
    , status := .PLANNED
    , realPayDate := none } :: scheduleLoop c annuityPayment monthlyRate n remainingAmount2 (i + 1)

/-- `generatePaymentSchedule(credit)`: month count from the date span,
annuity payment from `calculateAnnuityPayment`, one PLANNED payment per
month due at `StartDate.AddDate(0, i+1, 0)`.  (`make([]Payment, months)`
panics for a negative count; `Int.toNat` maps that unreachable case
to the empty schedule.) -/
def generatePaymentSchedule (c : Credit) : List Payment :=
  let months := scheduleMonths c
  let monthlyRate := c.rate / 12 / 100
  let annuityPayment := calculateAnnuityPayment c.amount c.rate months
  scheduleLoop c annuityPayment monthlyRate months.toNat c.amount 0

/-! ## Payment scheduler (`payment_scheduler_service.go`) -/

/-- Storage-layer failure injection for the scheduler's `tx.Save` /
`tx.Create` calls, keyed by the id of the row being written (for the
transaction row, by the id of the payment being processed). -/
structure FaultModel where
  savePaymentFails : Nat → Bool
  saveCreditFails : Nat → Bool
  saveAccountFails : Nat → Bool
  createTransactionFails : Nat → Bool

/-- The fault-free storage layer. -/
def noFaults : FaultModel :=
  { savePaymentFails := fun _ => false
  , saveCreditFails := fun _ => false
  , saveAccountFails := fun _ => false
  , createTransactionFails := fun _ => false }

/-- The error returns of `processPayment` (`errors.New` messages of the
source, as distinct kinds). -/
inductive SchedError where
  /-- "ошибка при обновлении просроченного платежа" / "ошибка при обновлении платежа" -/
  | savePaymentFailed
  /-- "ошибка при обновлении статуса кредита" -/
  | saveCreditFailed
  /-- "ошибка при списании средств" -/
  | saveAccountFailed
  /-- "ошибка при сохранении транзакции" -/
  | createTransactionFailed
deriving DecidableEq, Repr

/-- A payment row as loaded by the tick's batch query with
`Preload("Credit").Preload("Credit.Account")`: the payment plus in-memory
copies of its credit and that credit's account, all read from the state at
the start of the batch. -/
structure LoadedPayment where
  payment : Payment
  credit : Credit
  account : BankAccount
deriving DecidableEq, Repr

/-- Preload `Credit` and `Credit.Account` for one selected payment from
state `s` (a missing association leaves gorm's zero value). -/
def preloadPayment (s : DBState) (p : Payment) : LoadedPayment :=
  let credit := (findCredit s p.creditId).getD emptyCredit
  let account := (findAccount s credit.accountId).getD emptyAccount
  { payment := p, credit := credit, account := account }

/-- `processPayment(tx, &payment)`: the per-payment application logic of the
scheduler, operating on the preloaded in-memory copies `lp` and the
transaction state `tx`.  Mirrors the source line by line:
insufficient funds (checked against the preloaded account balance) either
skips an already-overdue payment or escalates it (overdue flag, OVERDUE
status, amount × 1.1, credit OVERDUE); sufficient funds debit the
preloaded account copy, mark the payment PAID at `now` and append a
WITHDRAW transaction row. -/
def processPayment (fm : FaultModel) (now : GoDate) (lp : LoadedPayment)
    (tx : DBState) : Except SchedError DBState :=
  if lp.account.balance < lp.payment.amount then
    if lp.payment.isOverdue then
      .ok tx
    else
      let p2 := { lp.payment with
                  isOverdue := true
                , status := PaymentStatus.OVERDUE
                , amount := lp.payment.amount * (11 / 10) }
      if fm.savePaymentFails p2.id then .error .savePaymentFailed else
      let tx2 := savePayment tx p2
      let c2 := { lp.credit with status := CreditStatus.OVERDUE }
      if fm.saveCreditFails c2.id then .error .saveCreditFailed else
      .ok (saveCredit tx2 c2)
  else
    let a2 := { lp.account with balance := lp.account.balance - lp.payment.amount }
    if fm.saveAccountFails a2.id then .error .saveAccountFailed else
    let tx2 := saveAccount tx a2
    let p2 := { lp.payment with
                status := PaymentStatus.PAID
              , realPayDate := some now }
    if fm.savePaymentFails p2.id then .error .savePaymentFailed else
    let tx3 := savePayment tx2 p2
    let t := { accountId := lp.credit.accountId
             , amount := -lp.payment.amount
             , type := TransactionType.WITHDRAW
             , description := "Credit payment" : Transaction }
    if fm.createTransactionFails lp.payment.id then .error .createTransactionFailed else
    .ok (createTransaction tx3 t)

/-- The `for _, payment := range payments` loop of a tick: thread the
transaction state through `processPayment`, stopping at the first error. -/
def runBatch (fm : FaultModel) (now : GoDate) :
    List LoadedPayment → DBState → Except SchedError DBState
  | [], tx => .ok tx
  | lp :: rest, tx =>
    match processPayment fm now lp tx with
    | .error e => .error e
    | .ok tx2 => runBatch fm now rest tx2

/-- The shared tail of both ticks: `tx.Commit()` keeps the batch's writes,
any loop error triggers `tx.Rollback()` (the returned state is the
pre-tick state) and the error is handed to the caller (`Start`) to log. -/
def tickResult (fm : FaultModel) (now : GoDate) (loaded : List LoadedPayment)
    (s : DBState) : DBState × Option SchedError :=
  match runBatch fm now loaded s with
  | .ok s2 => (s2, none)
  | .error e => (s, some e)

/-- `processPayments()`: one due-payment tick.  A single transaction spans
the whole batch: select every PLANNED payment with `pay_date <= now`
(preloading credit and account from the batch-start state), run the loop,
commit, rolling the whole transaction back on any error. -/
def processPayments (fm : FaultModel) (now : GoDate) (s : DBState) :
    DBState × Option SchedError :=
  let selected := s.payments.filter
    (fun p => dateLe p.payDate now && p.status == PaymentStatus.PLANNED)
  let loaded := selected.map (preloadPayment s)
  tickResult fm now loaded s

/-- `processOverduePayments()`: one overdue tick, identical to
`processPayments` except for the selection
`is_overdue = true AND status = OVERDUE`. -/
def processOverduePayments (fm : FaultModel) (now : GoDate) (s : DBState) :
    DBState × Option SchedError :=
  let selected := s.payments.filter
    (fun p => p.isOverdue && p.status == PaymentStatus.OVERDUE)
  let loaded := selected.map (preloadPayment s)
  tickResult fm now loaded s

/-! ## Credit service (`credit_service.go`) -/

deriving instance DecidableEq for Except

/-- The `errors.New` returns of `CreditService.Create` and
`CreditService.PayCredit`, as distinct kinds. -/
inductive CreditError where
  /-- a `validator` tag failed on the DTO -/
  | validationFailed
  /-- "ошибка при получении ставки центрального банка" -/
  | rateUnavailable
  /-- "банковский счет не найден" / "счет не найден" -/
  | accountNotFound
  /-- "Access denied" -/
  | accessDenied
  /-- "у счета уже есть активный кредит" -/
  | activeCreditExists
  /-- "кредит не найден" -/
  | creditNotFound
  /-- "кредит не активен" -/
  | creditNotActive
  /-- "неверный номер счета" -/
  | accountMismatch
  /-- "недостаточно средств на счете" -/
  | insufficientFunds
  /-- "нет запланированных платежей" -/
  | noPlannedPayment
  /-- "сумма платежа меньше минимальной" -/
  | amountTooLow
deriving DecidableEq, Repr

/-- `services.CreateCreditDTO`. -/
structure CreateCreditDTO where
  accountId : Nat
  amount : ℚ
  months : Int
  userId : Nat
deriving DecidableEq, Repr

/-- `services.PayCreditDTO`. -/
structure PayCreditDTO where
  amount : ℚ
  accountId : Nat
  creditId : Nat
deriving DecidableEq, Repr

/-- `services.PaymentDTO`. -/
structure PaymentDTO where
  id : Nat
  payDate : GoDate
  amount : ℚ
  initAmount : ℚ
  isOverdue : Bool
  status : PaymentStatus
  realPayDate : Option GoDate
deriving DecidableEq, Repr

/-- `toPaymentDTO`. -/
def toPaymentDTO (p : Payment) : PaymentDTO :=
  { id := p.id, payDate := p.payDate, amount := p.amount
  , initAmount := p.initAmount, isOverdue := p.isOverdue
  , status := p.status, realPayDate := p.realPayDate }

/-- An invocation of the Notifier collaborator
(`EmailService.SendCreditPaidNotification(email, creditID)`). -/
structure Notification where
  email : String
  creditId : Nat
deriving DecidableEq, Repr

/-- Result of one `Create` call: the resulting store (unchanged when the
call failed — every error path rolls the transaction back) and the created
credit or the error. -/
structure CreateResult where
  state : DBState
  result : Except CreditError Credit
deriving DecidableEq, Repr

/-- `validator.Struct(CreateCreditDTO)`: `AccountID`/`UserID` `required`
(non-zero `uint`), `Amount`/`Months` `required,gt=0`. -/
def validCreateCreditDTO (dto : CreateCreditDTO) : Bool :=
  dto.accountId != 0 && decide (0 < dto.amount) && decide (0 < dto.months)
    && dto.userId != 0

/-- `CreditService.Create(dto)`.  `rate` is the answer of the external
Rate Source (`GetCentralBankRate()`, an out-of-core collaborator):
`none` models its error return.  `now` is `time.Now()` at day
granularity.  Mirrors the source order: validation, rate fetch,
transaction begin, account lookup, holder check, single-ACTIVE-credit
check, then create credit + schedule, credit the account balance, append
the disbursement Transaction, commit. -/
def Create (rate : Option ℚ) (now : GoDate) (dto : CreateCreditDTO)
    (s : DBState) : CreateResult :=
  if !validCreateCreditDTO dto then
    { state := s, result := .error .validationFailed }
  else
    match rate with
    | none => { state := s, result := .error .rateUnavailable }
    | some rate =>
      match findAccount s dto.accountId with
      | none => { state := s, result := .error .accountNotFound }
      | some account =>
        if account.holderId != dto.userId then
          { state := s, result := .error .accessDenied }
        else if (s.credits.find? (fun c =>
            c.accountId == dto.accountId
              && c.status == CreditStatus.ACTIVE)).isSome then
          { state := s, result := .error .activeCreditExists }
        else
          let startDate := now
          let endDate := addMonths now dto.months
          let credit : Credit :=
            { id := s.nextCreditId, rate := rate, accountId := dto.accountId
            , amount := dto.amount, status := .ACTIVE
            , startDate := startDate, endDate := endDate }
          let s1 := { s with credits := s.credits ++ [credit]
                           , nextCreditId := s.nextCreditId + 1 }
          let schedule := generatePaymentSchedule credit
          let inserted := (List.range schedule.length).zip schedule |>.map
            (fun iq => { iq.2 with id := s1.nextPaymentId + iq.1 })
          let s2 := { s1 with payments := s1.payments ++ inserted
                            , nextPaymentId := s1.nextPaymentId + inserted.length }
          let account2 := { account with balance := account.balance + dto.amount }
          let s3 := saveAccount s2 account2
          let t : Transaction :=
            { accountId := dto.accountId, amount := dto.amount
            , type := .DEPOSIT, description := "Credit issuance" }
          let s4 := createTransaction s3 t
          { state := s4, result := .ok credit }

/-- The `Order("pay_date ASC").First` lookup of the next PLANNED payment of
a credit: an earliest-due-date element of the PLANNED payments (first in
row order among ties). -/
def earliestPlanned (s : DBState) (creditId : Nat) : Option Payment :=
  (s.payments.filter (fun p =>
      p.creditId == creditId && p.status == PaymentStatus.PLANNED)).foldl
    (fun acc p =>
      match acc with
      | none => some p
      | some q => if dateToDays p.payDate < dateToDays q.payDate then some p else some q)
    none

/-- The `Count` of PLANNED payments of a credit. -/
def countPlanned (s : DBState) (creditId : Nat) : Nat :=
  (s.payments.filter (fun p =>
      p.creditId == creditId && p.status == PaymentStatus.PLANNED)).length

/-- Result of one `PayCredit` call: the resulting store (unchanged when the
call failed), the Notifier invocations it made, and the returned
`PaymentDTO` or the error. -/
structure PayResult where
  state : DBState
  notifications : List Notification
  /-- `log.Printf("Ошибка при отправке уведомления: ...")`: the notifier
  failed and its error was logged (never propagated, never rolled back). -/
  loggedNotifierError : Bool
  result : Except CreditError PaymentDTO
deriving DecidableEq, Repr

/-- `validator.Struct(PayCreditDTO)`: `Amount` `required,gt=0`,
`AccountID` `required`. -/
def validPayCreditDTO (dto : PayCreditDTO) : Bool :=
  decide (0 < dto.amount) && dto.accountId != 0

/-- `CreditService.PayCredit(dto)`.  `notifierFails` tells whether the
Notifier collaborator (`EmailService.SendCreditPaidNotification`) errors;
its error is logged and never propagated.  Mirrors the source order:
validation, transaction begin, credit lookup (with preloaded account and
holder), ACTIVE check, account-number check, account lookup, funds check,
next-PLANNED-payment lookup (`pay_date ASC`), minimum-amount check; then
mark the payment PAID at `now` with the paid amount, debit the account,
append the Transaction, and if no PLANNED payment remains close the credit
(status PAID) and notify the holder; commit. -/
def PayCredit (notifierFails : Bool) (now : GoDate) (dto : PayCreditDTO)
    (s : DBState) : PayResult :=
  if !validPayCreditDTO dto then
    { state := s, notifications := [], loggedNotifierError := false, result := .error .validationFailed }
  else
    match findCredit s dto.creditId with
    | none => { state := s, notifications := [], loggedNotifierError := false, result := .error .creditNotFound }
    | some credit =>
      if credit.status != CreditStatus.ACTIVE then
        { state := s, notifications := [], loggedNotifierError := false, result := .error .creditNotActive }
      else if credit.accountId != dto.accountId then
        { state := s, notifications := [], loggedNotifierError := false, result := .error .accountMismatch }
      else
        match findAccount s dto.accountId with
        | none => { state := s, notifications := [], loggedNotifierError := false, result := .error .accountNotFound }
        | some account =>
          if account.balance < dto.amount then
            { state := s, notifications := [], loggedNotifierError := false, result := .error .insufficientFunds }
          else
            match earliestPlanned s dto.creditId with
            | none =>
              { state := s, notifications := [], loggedNotifierError := false, result := .error .noPlannedPayment }
            | some nextPayment =>
              if dto.amount < nextPayment.amount then
                { state := s, notifications := [], loggedNotifierError := false, result := .error .amountTooLow }
              else
                let p2 := { nextPayment with
                            status := PaymentStatus.PAID
                          , realPayDate := some now
                          , amount := dto.amount }
                let s1 := savePayment s p2
                let account2 := { account with balance := account.balance - dto.amount }
                let s2 := saveAccount s1 account2
                let t : Transaction :=
                  { accountId := dto.accountId, amount := -dto.amount
                  , type := .WITHDRAW, description := "Credit payment" }
                let s3 := createTransaction s2 t
                if countPlanned s3 dto.creditId == 0 then
                  let credit2 := { credit with status := CreditStatus.PAID }
                  let s4 := saveCredit s3 credit2
                  -- preloaded `credit.Account.Holder.Email` from the load state
                  let holderEmail :=
                    (((findAccount s credit.accountId).map (fun a => a.holderId)).bind
                      (fun h => (findUser s h).map (fun u => u.email))).getD ""
                  -- the Notifier is invoked; `notifierFails` only changes the log
                  { state := s4
                  , notifications := [{ email := holderEmail, creditId := credit.id }]
                  , loggedNotifierError := notifierFails
                  , result := .ok (toPaymentDTO p2) }
                else
                  { state := s3
                  , notifications := []
                  , loggedNotifierError := false
                  , result := .ok (toPaymentDTO p2) }

/-- The integer-valued columns of the `credits` table on which a
`Where("col = ?", v)` filter can bind, from the gorm model `models.Credit`
(and the SQL migration): `id`, `account_id` and the `gorm.Model`
timestamps are the only columns — there is no `user_id` column. -/
def creditIntColumn (col : String) : Option (Credit → Nat) :=
  match col with
  | "id" => some (fun c => c.id)
  | "account_id" => some (fun c => c.accountId)
  | _ => none

/-- The store's answer to a filtered scan: filtering on a column the table
does not define is a SQL error (Postgres: undefined column). -/
inductive SqlError where
  | undefinedColumn
deriving DecidableEq, Repr

/-- `CreditService.GetCreditsByUserID(userID)`: issues
`Where("user_id = ?", userID)` against the `credits` table. -/
def GetCreditsByUserID (s : DBState) (userID : Nat) : Except SqlError (List Credit) :=
  match creditIntColumn "user_id" with
  | some f => .ok (s.credits.filter (fun c => f c == userID))
  | none => .error .undefinedColumn

/-! ## Concrete stores used to instantiate the theorems -/

/-- Whether an `Except` result is a success. -/
def exceptIsOk : Except SchedError DBState → Bool
  | .ok _ => true
  | .error _ => false

/-- Account fixture. -/
def acctA : BankAccount := { id := 1, holderId := 1, balance := 100 }

/-- Account fixture. -/
def acctB : BankAccount := { id := 2, holderId := 2, balance := 100 }

/-- Credit fixture on `acctA`. -/
def credA : Credit :=
  { id := 1, rate := 12, accountId := 1, amount := 1000, status := .ACTIVE
  , startDate := ⟨2025, 1, 1⟩, endDate := ⟨2026, 1, 1⟩ }

/-- Credit fixture on `acctB`. -/
def credB : Credit :=
  { id := 2, rate := 12, accountId := 2, amount := 1000, status := .ACTIVE
  , startDate := ⟨2025, 1, 1⟩, endDate := ⟨2026, 1, 1⟩ }

/-- A due PLANNED payment of `credA`, fundable from `acctA`. -/
def payA : Payment :=
  { id := 1, creditId := 1, payDate := ⟨2025, 2, 1⟩, amount := 50
  , initAmount := 50, isOverdue := false, status := .PLANNED, realPayDate := none }

/-- A due PLANNED payment of `credB`, fundable from `acctB`. -/
def payB : Payment :=
  { id := 2, creditId := 2, payDate := ⟨2025, 2, 1⟩, amount := 50
  , initAmount := 50, isOverdue := false, status := .PLANNED, realPayDate := none }

/-- A store with two due payments on two different accounts. -/
def stateC1 : DBState :=
  { users := [⟨1, "a@bank.io"⟩, ⟨2, "b@bank.io"⟩]
  , accounts := [acctA, acctB]
  , credits := [credA, credB]
  , payments := [payA, payB]
  , transactions := []
  , nextCreditId := 3, nextPaymentId := 3 }

/-- `stateC1` with the second payment already escalated (overdue, OVERDUE). -/
def stateOv : DBState :=
  { stateC1 with payments :=
      [payA, { payB with isOverdue := true, status := .OVERDUE }] }

/-- A storage layer on which saving payment row 2 fails. -/
def faultOn2 : FaultModel :=
  { noFaults with savePaymentFails := fun i => i == 2 }

/-- The tick instant for the fixtures. -/
def nowTick : GoDate := ⟨2025, 3, 1⟩

/-- A credit over exactly one calendar month starting February 1
(a 28-day span). -/
def febCredit : Credit :=
  { id := 1, rate := 12, accountId := 1, amount := 120000, status := .ACTIVE
  , startDate := ⟨2021, 2, 1⟩, endDate := ⟨2021, 3, 1⟩ }

/-- A 120000-at-12%-for-12-months credit starting January 1 2025, with the
end date `Create` would derive (`startDate.AddDate(0, 12, 0)`). -/
def credit2025 : Credit :=
  { id := 1, rate := 12, accountId := 1, amount := 120000, status := .ACTIVE
  , startDate := ⟨2025, 1, 1⟩, endDate := addMonths ⟨2025, 1, 1⟩ 12 }

/-- A store whose single account (balance `bal`) owns one credit with two
due PLANNED payments of amounts `amt1` and `amt2`. -/
def sameAcctState (bal amt1 amt2 : ℚ) : DBState :=
  { users := [⟨1, "holder@bank.io"⟩]
  , accounts := [{ id := 1, holderId := 1, balance := bal }]
  , credits := [{ id := 1, rate := 12, accountId := 1, amount := 1000
                , status := .ACTIVE
                , startDate := ⟨2025, 1, 1⟩, endDate := ⟨2026, 1, 1⟩ }]
  , payments :=
      [ { id := 1, creditId := 1, payDate := ⟨2025, 2, 1⟩, amount := amt1
        , initAmount := amt1, isOverdue := false, status := .PLANNED
        , realPayDate := none }
      , { id := 2, creditId := 1, payDate := ⟨2025, 3, 1⟩, amount := amt2
        , initAmount := amt2, isOverdue := false, status := .PLANNED
        , realPayDate := none } ]
  , transactions := []
  , nextCreditId := 2, nextPaymentId := 3 }

/-- A loaded payment whose account cannot cover it (balance 100 < 500). -/
def lpLow : LoadedPayment :=
  { payment := { id := 5, creditId := 7, payDate := ⟨2025, 2, 1⟩, amount := 500
               , initAmount := 500, isOverdue := false, status := .PLANNED
               , realPayDate := none }
  , credit := { id := 7, rate := 10, accountId := 3, amount := 1000
              , status := .ACTIVE
              , startDate := ⟨2025, 1, 1⟩, endDate := ⟨2026, 1, 1⟩ }
  , account := { id := 3, holderId := 9, balance := 100 } }

/-- `lpLow` already escalated (overdue flag set, status OVERDUE). -/
def lpLowOv : LoadedPayment :=
  { lpLow with payment :=
      { lpLow.payment with isOverdue := true, status := .OVERDUE } }

/-- The store holding the `lpLow` rows. -/
def stateLow : DBState :=
  { users := [⟨9, "c@bank.io"⟩]
  , accounts := [lpLow.account]
  , credits := [lpLow.credit]
  , payments := [lpLow.payment]
  , transactions := []
  , nextCreditId := 8, nextPaymentId := 6 }

/-- The store holding the `lpLowOv` rows. -/
def stateLowOv : DBState :=
  { stateLow with payments := [lpLowOv.payment] }

/-- A store for the manual-payment scenarios: an ACTIVE credit with two
PLANNED payments of 10000 each, on an account holding 100000. -/
def stateB : DBState :=
  { users := [⟨1, "holder@bank.io"⟩]
  , accounts := [{ id := 1, holderId := 1, balance := 100000 }]
  , credits := [{ id := 1, rate := 12, accountId := 1, amount := 20000
                , status := .ACTIVE
                , startDate := ⟨2025, 1, 1⟩, endDate := ⟨2025, 3, 1⟩ }]
  , payments :=
      [ { id := 1, creditId := 1, payDate := ⟨2025, 2, 1⟩, amount := 10000
        , initAmount := 10000, isOverdue := false, status := .PLANNED
        , realPayDate := none }
      , { id := 2, creditId := 1, payDate := ⟨2025, 3, 1⟩, amount := 10000
        , initAmount := 10000, isOverdue := false, status := .PLANNED
        , realPayDate := none } ]
  , transactions := []
  , nextCreditId := 2, nextPaymentId := 3 }

/-- `stateB` with a single remaining PLANNED payment (the payoff case). -/
def stateB1 : DBState :=
  { stateB with payments :=
      [ { id := 1, creditId := 1, payDate := ⟨2025, 2, 1⟩, amount := 10000
        , initAmount := 10000, isOverdue := false, status := .PLANNED
        , realPayDate := none } ] }

/-! ## Store and calendar lemmas -/

/-- `find?` by key after an update-by-key returns the updated row. -/
theorem find?_map_update {α : Type} (idf : α → Nat) (l : List α) (x : α) :
    (l.map fun q => if idf q == idf x then x else q).find? (fun q => idf q == idf x)
      = (l.find? fun q => idf q == idf x).map (fun _ => x) := by
  induction l with
  | nil => simp
  | cons a l ih =>
    by_cases h : idf a = idf x
    · rw [List.map_cons, if_pos (by simpa using h)]
      rw [List.find?_cons_of_pos _ (by simp), List.find?_cons_of_pos _ (by simpa using h)]
      simp
    · rw [List.map_cons, if_neg (by simpa using h)]
      rw [List.find?_cons_of_neg _ (by simpa using h),
        List.find?_cons_of_neg _ (by simpa using h)]
      exact ih

/-- If every row passing a filter has key `i` and the replacement row fails
the filter, updating by key `i` empties the filter. -/
theorem filter_map_update_nil {α : Type} (idf : α → Nat) (p : α → Bool) (l : List α)
    (x : α) (i : Nat) (hx : p x = false)
    (hall : ∀ q ∈ l, p q = true → idf q = i) :
    (l.map fun q => if idf q == i then x else q).filter p = [] := by
  rw [List.filter_eq_nil_iff]
  intro q hq
  simp only [List.mem_map] at hq
  obtain ⟨orig, ho, rfl⟩ := hq
  by_cases h : idf orig = i
  · simp [h, hx]
  · rw [if_neg (by simpa using h)]
    intro hp
    exact h (hall orig ho hp)

/-- `savePayment` overwrites the looked-up row. -/
theorem findPayment_savePayment (s : DBState) (p : Payment) :
    findPayment (savePayment s p) p.id = (findPayment s p.id).map (fun _ => p) := by
  unfold findPayment savePayment
  exact find?_map_update (fun q : Payment => q.id) s.payments p

/-- `saveCredit` overwrites the looked-up row. -/
theorem findCredit_saveCredit (s : DBState) (c : Credit) :
    findCredit (saveCredit s c) c.id = (findCredit s c.id).map (fun _ => c) := by
  unfold findCredit saveCredit
  exact find?_map_update (fun q : Credit => q.id) s.credits c

/-- `saveAccount` overwrites the looked-up row. -/
theorem findAccount_saveAccount (s : DBState) (a : BankAccount) :
    findAccount (saveAccount s a) a.id = (findAccount s a.id).map (fun _ => a) := by
  unfold findAccount saveAccount
  exact find?_map_update (fun q : BankAccount => q.id) s.accounts a

/-- Closing the only PLANNED payment of a credit leaves none. -/
theorem countPlanned_savePayment_zero (s : DBState) (cid : Nat) (pNew : Payment)
    (hnp : pNew.status ≠ .PLANNED)
    (hall : ∀ q ∈ s.payments, q.creditId = cid → q.status = .PLANNED → q.id = pNew.id) :
    countPlanned (savePayment s pNew) cid = 0 := by
  have hx : (fun p => p.creditId == cid && p.status == PaymentStatus.PLANNED) pNew
      = false := by
    have h2 : (pNew.status == PaymentStatus.PLANNED) = false := by
      simpa using hnp
    simp [h2]
  have h := filter_map_update_nil (fun q => q.id)
    (fun p => p.creditId == cid && p.status == PaymentStatus.PLANNED)
    s.payments pNew pNew.id hx ?_
  · unfold countPlanned savePayment
    simp only at h ⊢
    rw [h]
    rfl
  · intro q hq hpq
    simp only [Bool.and_eq_true, beq_iff_eq] at hpq
    exact hall q hq hpq.1 hpq.2

/-- A year step adds 365 days plus the leap day of the year stepped over. -/
theorem daysToYear_succ (y : Int) :
    daysToYear (y + 1) = daysToYear y + 365 + (if isLeap y then 1 else 0) := by
  simp only [daysToYear, isLeap, add_sub_cancel_right]
  split_ifs with h
  · simp only [Bool.and_eq_true, Bool.or_eq_true, beq_iff_eq, bne_iff_ne, ne_eq] at h
    omega
  · simp only [Bool.and_eq_true, Bool.or_eq_true, beq_iff_eq, bne_iff_ne, ne_eq,
      not_and, not_or, not_not] at h
    omega

/-- Stepping the (possibly unnormalised) month field strictly advances the
absolute day number: every month spans at least 28 days. -/
theorem dateToDays_month_succ (y mo day : Int) :
    dateToDays ⟨y, mo, day⟩ < dateToDays ⟨y, mo + 1, day⟩ := by
  simp only [dateToDays]
  have h2 : mo + 1 - 1 = (mo - 1) + 1 := by omega
  rw [h2]
  set c := mo - 1 with hc
  rcases lt_or_ge (c % 12) 11 with hr | hr
  · have e1 : (c + 1) / 12 = c / 12 := by omega
    have e2 : (c + 1) % 12 = c % 12 + 1 := by omega
    rw [e1, e2]
    have hcases : c % 12 = 0 ∨ c % 12 = 1 ∨ c % 12 = 2 ∨ c % 12 = 3 ∨ c % 12 = 4 ∨
        c % 12 = 5 ∨ c % 12 = 6 ∨ c % 12 = 7 ∨ c % 12 = 8 ∨ c % 12 = 9 ∨
        c % 12 = 10 := by omega
    rcases hcases with h|h|h|h|h|h|h|h|h|h|h <;>
      rw [h] <;> norm_num [daysBefore] <;> split_ifs <;> omega
  · have hr11 : c % 12 = 11 := by omega
    have e1 : (c + 1) / 12 = c / 12 + 1 := by omega
    have e2 : (c + 1) % 12 = 0 := by omega
    rw [e1, e2, hr11]
    have e3 : y + (c / 12 + 1) = (y + c / 12) + 1 := by ring
    rw [e3, daysToYear_succ]
    norm_num [daysBefore]

/-- `AddDate(0, k+1, 0)` lands strictly after `AddDate(0, k, 0)`. -/
theorem dateToDays_addMonths_lt (d : GoDate) (k : Int) :
    dateToDays (addMonths d k) < dateToDays (addMonths d (k + 1)) := by
  have h := dateToDays_month_succ d.year (d.month + k) d.day
  have e : d.month + (k + 1) = (d.month + k) + 1 := by ring
  simpa [addMonths, e] using h

/-- The schedule loop emits one payment per remaining iteration. -/
theorem scheduleLoop_length (c : Credit) (a r : ℚ) (n : Nat) :
    ∀ (rem : ℚ) (i : Nat), (scheduleLoop c a r n rem i).length = n := by
  induction n with
  | zero => intro rem i; rfl
  | succ n ih => intro rem i; simpa [scheduleLoop] using ih _ _

/-- Shape of the `j`-th payment the schedule loop emits after `i` completed
iterations. -/
theorem scheduleLoop_get (c : Credit) (a r : ℚ) (n : Nat) :
    ∀ (rem : ℚ) (i j : Nat) (h : j < (scheduleLoop c a r n rem i).length),
      (scheduleLoop c a r n rem i).get ⟨j, h⟩ =
        { id := 0, creditId := c.id
        , payDate := addMonths c.startDate (Int.ofNat (i + j) + 1)
        , amount := a, initAmount := a, isOverdue := false
        , status := .PLANNED, realPayDate := none } := by
  induction n with
  | zero => intro rem i j h; simp [scheduleLoop] at h
  | succ n ih =>
    intro rem i j h
    cases j with
    | zero => simp [scheduleLoop]
    | succ j =>
      have h2 : j < (scheduleLoop c a r n (rem - (a - rem * r)) (i + 1)).length := by
        rw [scheduleLoop_length]
        rw [scheduleLoop_length] at h
        omega
      have hrec := ih (rem - (a - rem * r)) (i + 1) j h2
      have e : (i + 1) + j = i + (j + 1) := by omega
      rw [e] at hrec
      simpa [scheduleLoop] using hrec

/-- Length of a generated schedule: the day span divided by 30. -/
theorem generatePaymentSchedule_length (c : Credit) :
    (generatePaymentSchedule c).length = (scheduleMonths c).toNat := by
  unfold generatePaymentSchedule
  exact scheduleLoop_length _ _ _ _ _ _

/-- Shape of the `i`-th generated payment. -/
theorem generatePaymentSchedule_get (c : Credit) (i : Nat)
    (h : i < (generatePaymentSchedule c).length) :
    (generatePaymentSchedule c).get ⟨i, h⟩ =
      { id := 0, creditId := c.id
      , payDate := addMonths c.startDate (Int.ofNat i + 1)
      , amount := calculateAnnuityPayment c.amount c.rate (scheduleMonths c)
      , initAmount := calculateAnnuityPayment c.amount c.rate (scheduleMonths c)
      , isOverdue := false, status := .PLANNED, realPayDate := none } := by
  unfold generatePaymentSchedule at h ⊢
  have hrec := scheduleLoop_get c
    (calculateAnnuityPayment c.amount c.rate (scheduleMonths c))
    (c.rate / 12 / 100) (scheduleMonths c).toNat c.amount 0 i h
  simpa using hrec

/-- A tick that reports an error commits nothing: the rollback restores the
whole pre-tick state. -/
theorem tickResult_error_rollback (fm : FaultModel) (now : GoDate)
    (loaded : List LoadedPayment) (s : DBState)
    (h : (tickResult fm now loaded s).2.isSome = true) :
    (tickResult fm now loaded s).1 = s := by
  unfold tickResult at h ⊢
  cases hrb : runBatch fm now loaded s with
  | ok s2 => rw [hrb] at h; simp at h
  | error e => simp

/-! ## The claims -/

/-- Claim C1, amended: in both scheduler ticks all selected payments share
one atomic unit; an error while applying one payment rolls back the whole
tick — sibling payments' effects included — and aborts the remaining
payments, the error being only logged by the scheduler loop. -/
theorem C1_tick_shares_one_atomic_unit (fm : FaultModel) (now : GoDate) (s : DBState) :
    ((processPayments fm now s).2.isSome = true → (processPayments fm now s).1 = s) ∧
    ((processOverduePayments fm now s).2.isSome = true →
      (processOverduePayments fm now s).1 = s) :=
  ⟨fun h => tickResult_error_rollback fm now _ s h,
   fun h => tickResult_error_rollback fm now _ s h⟩

/-- Claim C1, counterexample to the claim as stated: in a due-payment tick
over two fundable payments on two accounts where saving the second payment
fails, the first payment's application succeeds (its own `processPayment`
returns ok) yet after the tick nothing of it committed — payment 1 is still
PLANNED and account 1 still holds its full balance, because the one shared
transaction was rolled back. -/
theorem C1_counterexample :
    exceptIsOk (processPayment faultOn2 nowTick (preloadPayment stateC1 payA) stateC1)
        = true ∧
    processPayments faultOn2 nowTick stateC1 = (stateC1, some SchedError.savePaymentFailed) ∧
    findPayment (processPayments faultOn2 nowTick stateC1).1 payA.id = some payA ∧
    findAccount (processPayments faultOn2 nowTick stateC1).1 acctA.id = some acctA := by
  refine ⟨by decide, by decide, by decide, by decide⟩

/-- Claim C1, witness: the amended theorem applied to the failing due tick
and to a failing overdue tick. -/
theorem C1_witness :
    ((processPayments faultOn2 nowTick stateC1).2.isSome = true ∧
      (processPayments faultOn2 nowTick stateC1).1 = stateC1) ∧
    ((processOverduePayments faultOn2 nowTick stateOv).2.isSome = true ∧
      (processOverduePayments faultOn2 nowTick stateOv).1 = stateOv) :=
  ⟨⟨by decide, (C1_tick_shares_one_atomic_unit faultOn2 nowTick stateC1).1 (by decide)⟩,
   ⟨by decide, (C1_tick_shares_one_atomic_unit faultOn2 nowTick stateOv).2 (by decide)⟩⟩

/-- Claim C3: the claim is right and the code wrong (code bug).  The
annuity computation has no special case: at `annualRatePercent = 0` its
denominator `(1+0)^term - 1` is exactly `0`, so the source divides zero by
zero (NaN in `float64`; `0` in this rational model) instead of returning
`principal / term = 10000`; and at `term = 0` it returns a value (again a
division by zero) instead of an `InvalidTerm` error — the Go function has
no error channel at all. -/
theorem C3_missing_special_cases :
    ((1 + (0 : ℚ) / 12 / 100) ^ (12 : ℤ) - 1) = 0 ∧
    calculateAnnuityPayment 120000 0 12 = 0 ∧
    (120000 : ℚ) / 12 = 10000 ∧
    calculateAnnuityPayment 120000 12 0 = 0 := by
  refine ⟨by norm_num, ?_, by norm_num, ?_⟩ <;> norm_num [calculateAnnuityPayment]

/-- Claim C4, counterexample to the claim as stated: a credit whose end
date is exactly one calendar month after its start date (February 1 to
March 1, a 28-day span) generates an empty schedule, not one payment —
the month count is the day span divided by 30, not the calendar month
count. -/
theorem C4_counterexample :
    febCredit.endDate = addMonths febCredit.startDate 1 ∧
    dateToDays febCredit.endDate - dateToDays febCredit.startDate = 28 ∧
    (generatePaymentSchedule febCredit).length = 0 := by
  refine ⟨rfl, by decide, ?_⟩
  rw [generatePaymentSchedule_length]
  decide

/-- Claim C4, amended: the generated schedule has
`⌊(endDate - startDate in days) / 30⌋` payments (not necessarily the
calendar-month count `T`); payment `i` is due at start date plus `i+1`
months, the due dates strictly increase month over month, and every
generated payment starts PLANNED, not overdue, with no real pay date. -/
theorem C4_schedule_shape (c : Credit) :
    (generatePaymentSchedule c).length = (scheduleMonths c).toNat ∧
    (∀ i (h : i < (generatePaymentSchedule c).length),
      ((generatePaymentSchedule c).get ⟨i, h⟩).payDate
          = addMonths c.startDate (Int.ofNat i + 1) ∧
      ((generatePaymentSchedule c).get ⟨i, h⟩).status = PaymentStatus.PLANNED ∧
      ((generatePaymentSchedule c).get ⟨i, h⟩).isOverdue = false ∧
      ((generatePaymentSchedule c).get ⟨i, h⟩).realPayDate = none) ∧
    (∀ k : Int, dateToDays (addMonths c.startDate k)
        < dateToDays (addMonths c.startDate (k + 1))) := by
  refine ⟨generatePaymentSchedule_length c, ?_, fun k => dateToDays_addMonths_lt _ k⟩
  intro i h
  rw [generatePaymentSchedule_get c i h]
  exact ⟨rfl, rfl, rfl, rfl⟩

/-- Claim C4, witness: the amended theorem applied to the 12-month credit
fixture and its first generated payment. -/
theorem C4_witness :
    (generatePaymentSchedule credit2025).length = 12 ∧
    ((generatePaymentSchedule credit2025).get ⟨0, by
        rw [generatePaymentSchedule_length]; decide⟩).status = PaymentStatus.PLANNED := by
  have h := C4_schedule_shape credit2025
  refine ⟨?_, (h.2.1 0 (by rw [generatePaymentSchedule_length]; decide)).2.1⟩
  rw [h.1]; decide

/-- Claim C8, counterexample to the claim as stated: at principal 120000,
rate 12, term 12 the computed payment differs from 10661.01 by more than
0.8 — far outside cent-level tolerance. -/
theorem C8_counterexample :
    |calculateAnnuityPayment 120000 12 12 - 10661.01| > 4 / 5 := by
  have h : calculateAnnuityPayment 120000 12 12 - 10661.01
      = 3570722371105104239024233 / 4227501004398990688706700 := by
    norm_num [calculateAnnuityPayment]
  rw [h, abs_of_pos (by norm_num)]
  norm_num

/-- Claim C8, amended: with principal 120000, annual rate 12 percent and
term 12 months the computed monthly annuity payment is approximately
10661.85 (within a cent), and the generated schedule has 12 entries. -/
theorem C8_scenario_A :
    |calculateAnnuityPayment 120000 12 12 - 10661.85| < 1 / 100 ∧
    (generatePaymentSchedule credit2025).length = 12 := by
  constructor
  · have h : calculateAnnuityPayment 120000 12 12 - 10661.85
        = 3924305481990412102121 / 845500200879798137741340 := by
      norm_num [calculateAnnuityPayment]
    rw [h, abs_of_pos (by norm_num)]
    norm_num
  · rw [generatePaymentSchedule_length]
    decide

/-- Claim C10: `GetCreditsByUserID` filters the credits table on a
`user_id` column the `Credit` entity does not define, so for every store
and every user id the read path fails with an undefined-column error and
never returns that user's credits. -/
theorem C10_get_credits_by_user_never_succeeds (s : DBState) (userID : Nat) :
    GetCreditsByUserID s userID = .error SqlError.undefinedColumn := rfl

/-- Claim C2: when the scheduler applies a payment whose owning account's
balance is below the payment's current amount, a not-yet-overdue payment is
escalated — overdue flag set, status OVERDUE, amount inflated by exactly
10%, owning credit set OVERDUE — with the account rows and transaction rows
untouched; an already-overdue payment is skipped silently (no change, no
error). -/
theorem C2_insufficient_funds_escalates_or_skips (now : GoDate)
    (lp : LoadedPayment) (tx : DBState)
    (hbal : lp.account.balance < lp.payment.amount)
    (hp : findPayment tx lp.payment.id = some lp.payment)
    (hc : findCredit tx lp.credit.id = some lp.credit) :
    (lp.payment.isOverdue = false →
      ∃ tx2, processPayment noFaults now lp tx = .ok tx2 ∧
        findPayment tx2 lp.payment.id = some
          { lp.payment with
              isOverdue := true
            , status := PaymentStatus.OVERDUE
            , amount := lp.payment.amount * (11 / 10) } ∧
        findCredit tx2 lp.credit.id
          = some { lp.credit with status := CreditStatus.OVERDUE } ∧
        tx2.accounts = tx.accounts ∧ tx2.transactions = tx.transactions) ∧
    (lp.payment.isOverdue = true →
      processPayment noFaults now lp tx = .ok tx) := by
  constructor
  · intro hov
    refine ⟨saveCredit (savePayment tx
        { lp.payment with
            isOverdue := true
          , status := PaymentStatus.OVERDUE
          , amount := lp.payment.amount * (11 / 10) })
        { lp.credit with status := CreditStatus.OVERDUE }, ?_, ?_, ?_, rfl, rfl⟩
    · simp [processPayment, if_pos hbal, hov, noFaults]
    · show findPayment (savePayment tx _) _ = _
      rw [findPayment_savePayment tx]
      rw [show findPayment tx
          ({ lp.payment with
               isOverdue := true
             , status := PaymentStatus.OVERDUE
             , amount := lp.payment.amount * (11 / 10) } : Payment).id
          = some lp.payment from hp]
      rfl
    · rw [findCredit_saveCredit]
      rw [show findCredit (savePayment tx _)
          ({ lp.credit with status := CreditStatus.OVERDUE } : Credit).id
          = some lp.credit from hc]
      rfl
  · intro hov
    simp [processPayment, if_pos hbal, hov]

/-- Claim C2, witness: the escalation branch at a concrete under-funded
loaded payment, and the silent-skip branch at its already-overdue
variant. -/
theorem C2_witness :
    (lpLow.account.balance < lpLow.payment.amount ∧
      ∃ tx2, processPayment noFaults nowTick lpLow stateLow = .ok tx2 ∧
        findPayment tx2 lpLow.payment.id = some
          { lpLow.payment with
              isOverdue := true
            , status := PaymentStatus.OVERDUE
            , amount := lpLow.payment.amount * (11 / 10) } ∧
        findCredit tx2 lpLow.credit.id
          = some { lpLow.credit with status := CreditStatus.OVERDUE } ∧
        tx2.accounts = stateLow.accounts ∧ tx2.transactions = stateLow.transactions) ∧
    (lpLowOv.account.balance < lpLowOv.payment.amount ∧
      processPayment noFaults nowTick lpLowOv stateLowOv = .ok stateLowOv) :=
  ⟨⟨by decide,
    (C2_insufficient_funds_escalates_or_skips nowTick lpLow stateLow
      (by decide) (by decide) (by decide)).1 rfl⟩,
   ⟨by decide,
    (C2_insufficient_funds_escalates_or_skips nowTick lpLowOv stateLowOv
      (by decide) (by decide) (by decide)).2 rfl⟩⟩

/-- Claim C9: a due tick over two due payments of one account checks and
debits each against the account as preloaded at batch start: with
`amt1 ≤ bal` and `amt2 ≤ bal` both payments are marked PAID (each funds
check compares with the initial balance `bal`, not the balance left by the
earlier payment), both WITHDRAW transaction rows are written, yet the final
account balance is `bal - amt2` only — the later payment's preloaded
account copy overwrote the earlier debit. -/
theorem C9_preloaded_account_overwrites_debit (bal amt1 amt2 : ℚ)
    (h1 : amt1 ≤ bal) (h2 : amt2 ≤ bal) :
    (processPayments noFaults nowTick (sameAcctState bal amt1 amt2)).2 = none ∧
    findAccount (processPayments noFaults nowTick (sameAcctState bal amt1 amt2)).1 1
      = some { id := 1, holderId := 1, balance := bal - amt2 } ∧
    findPayment (processPayments noFaults nowTick (sameAcctState bal amt1 amt2)).1 1
      = some { id := 1, creditId := 1, payDate := ⟨2025, 2, 1⟩, amount := amt1
             , initAmount := amt1, isOverdue := false, status := .PAID
             , realPayDate := some nowTick } ∧
    findPayment (processPayments noFaults nowTick (sameAcctState bal amt1 amt2)).1 2
      = some { id := 2, creditId := 1, payDate := ⟨2025, 3, 1⟩, amount := amt2
             , initAmount := amt2, isOverdue := false, status := .PAID
             , realPayDate := some nowTick } ∧
    (processPayments noFaults nowTick (sameAcctState bal amt1 amt2)).1.transactions
      = [ { accountId := 1, amount := -amt1, type := .WITHDRAW
          , description := "Credit payment" }
        , { accountId := 1, amount := -amt2, type := .WITHDRAW
          , description := "Credit payment" } ] := by
  have hn1 : ¬ (bal < amt1) := not_lt.mpr h1
  have hn2 : ¬ (bal < amt2) := not_lt.mpr h2
  refine ⟨?_, ?_, ?_, ?_, ?_⟩ <;>
    simp [processPayments, tickResult, runBatch, preloadPayment, processPayment,
      sameAcctState, findCredit, findAccount, findPayment, savePayment, saveAccount,
      createTransaction, noFaults, dateLe, dateToDays, daysToYear, daysBefore, isLeap,
      nowTick, hn1, hn2, List.filter, List.find?]

/-- Claim C9, witness: balance 100 with due payments 80 and 90 — their sum
exceeds the balance, yet both are paid and the final balance is
100 - 90 = 10. -/
theorem C9_witness :
    ((80 : ℚ) ≤ 100 ∧ (90 : ℚ) ≤ 100 ∧ ¬ ((80 : ℚ) + 90 ≤ 100)) ∧
    (processPayments noFaults nowTick (sameAcctState 100 80 90)).2 = none ∧
    findAccount (processPayments noFaults nowTick (sameAcctState 100 80 90)).1 1
      = some { id := 1, holderId := 1, balance := 10 } :=
  ⟨⟨by norm_num, by norm_num, by norm_num⟩,
   (C9_preloaded_account_overwrites_debit 100 80 90 (by norm_num) (by norm_num)).1,
   by
     have h := (C9_preloaded_account_overwrites_debit 100 80 90
       (by norm_num) (by norm_num)).2.1
     norm_num at h
     exact h⟩

/-- Claim C5: a manual `PayCredit` on an ACTIVE credit — with the matching
account sufficiently funded for the supplied amount and an earliest PLANNED
payment present — fails with the minimum-amount error and mutates nothing
when the supplied amount is below that payment's amount; when the supplied
amount is at least that payment's amount it is accepted and the amount
recorded on the paid payment (row and returned view) is the amount actually
supplied. -/
theorem C5_minimum_amount_check (nf : Bool) (now : GoDate) (dto : PayCreditDTO)
    (s : DBState) (credit : Credit) (account : BankAccount) (nextP : Payment)
    (hv : validPayCreditDTO dto = true)
    (hc : findCredit s dto.creditId = some credit)
    (ha : credit.status = CreditStatus.ACTIVE)
    (hm : credit.accountId = dto.accountId)
    (hacc : findAccount s dto.accountId = some account)
    (hbal : dto.amount ≤ account.balance)
    (hnext : earliestPlanned s dto.creditId = some nextP)
    (hp : findPayment s nextP.id = some nextP) :
    (dto.amount < nextP.amount →
      PayCredit nf now dto s =
        { state := s, notifications := [], loggedNotifierError := false
        , result := .error .amountTooLow }) ∧
    (nextP.amount ≤ dto.amount →
      (PayCredit nf now dto s).result = .ok (toPaymentDTO
        { nextP with
            status := PaymentStatus.PAID
          , realPayDate := some now
          , amount := dto.amount }) ∧
      findPayment (PayCredit nf now dto s).state nextP.id = some
        { nextP with
            status := PaymentStatus.PAID
          , realPayDate := some now
          , amount := dto.amount }) := by
  have hnbal : ¬ (account.balance < dto.amount) := not_lt.mpr hbal
  constructor
  · intro hlt
    simp [PayCredit, hv, hc, ha, hm, hacc, hnbal, hnext, hlt]
  · intro hge
    have hnlt : ¬ (dto.amount < nextP.amount) := not_lt.mpr hge
    simp only [PayCredit, hv, hc, ha, hm, hacc, hnbal, hnext, hnlt,
      Bool.not_true, Bool.false_eq_true, if_false, ite_false, bne_self_eq_false]
    constructor
    · split <;> rfl
    · split <;>
        · show findPayment (savePayment s _) _ = _
          rw [findPayment_savePayment s]
          rw [show findPayment s
              ({ nextP with
                  status := PaymentStatus.PAID
                , realPayDate := some now
                , amount := dto.amount } : Payment).id = some nextP from hp]
          rfl

/-- Claim C5, witness: on the two-payment fixture, paying 5000 against a
10000 minimum fails with the minimum-amount error and leaves the store
untouched; paying 12000 succeeds and records 12000 on the paid payment. -/
theorem C5_witness :
    ((5000 : ℚ) < 10000 ∧
      PayCredit false nowTick { amount := 5000, accountId := 1, creditId := 1 } stateB
        = { state := stateB, notifications := [], loggedNotifierError := false
          , result := .error .amountTooLow }) ∧
    ((10000 : ℚ) ≤ 12000 ∧
      (PayCredit false nowTick { amount := 12000, accountId := 1, creditId := 1 }
          stateB).result
        = .ok (toPaymentDTO
            { id := 1, creditId := 1, payDate := ⟨2025, 2, 1⟩, amount := 12000
            , initAmount := 10000, isOverdue := false, status := .PAID
            , realPayDate := some nowTick })) :=
  ⟨⟨by norm_num,
    (C5_minimum_amount_check false nowTick
        { amount := 5000, accountId := 1, creditId := 1 } stateB
        { id := 1, rate := 12, accountId := 1, amount := 20000
        , status := .ACTIVE, startDate := ⟨2025, 1, 1⟩, endDate := ⟨2025, 3, 1⟩ }
        { id := 1, holderId := 1, balance := 100000 }
        { id := 1, creditId := 1, payDate := ⟨2025, 2, 1⟩, amount := 10000
        , initAmount := 10000, isOverdue := false, status := .PLANNED
        , realPayDate := none }
        (by decide) (by decide) rfl rfl (by decide) (by norm_num) (by decide)
        (by decide)).1 (by norm_num)⟩,
   ⟨by norm_num,
    ((C5_minimum_amount_check false nowTick
        { amount := 12000, accountId := 1, creditId := 1 } stateB
        { id := 1, rate := 12, accountId := 1, amount := 20000
        , status := .ACTIVE, startDate := ⟨2025, 1, 1⟩, endDate := ⟨2025, 3, 1⟩ }
        { id := 1, holderId := 1, balance := 100000 }
        { id := 1, creditId := 1, payDate := ⟨2025, 2, 1⟩, amount := 10000
        , initAmount := 10000, isOverdue := false, status := .PLANNED
        , realPayDate := none }
        (by decide) (by decide) rfl rfl (by decide) (by norm_num) (by decide)
        (by decide)).2 (by norm_num)).1⟩⟩

/-- Writing other tables leaves payment point lookups unchanged. -/
theorem findPayment_saveAccount (s : DBState) (a : BankAccount) (i : Nat) :
    findPayment (saveAccount s a) i = findPayment s i := rfl

/-- Appending a transaction leaves payment point lookups unchanged. -/
theorem findPayment_createTransaction (s : DBState) (t : Transaction) (i : Nat) :
    findPayment (createTransaction s t) i = findPayment s i := rfl

/-- Writing other tables leaves credit point lookups unchanged. -/
theorem findCredit_savePayment (s : DBState) (p : Payment) (i : Nat) :
    findCredit (savePayment s p) i = findCredit s i := rfl

/-- Writing other tables leaves credit point lookups unchanged. -/
theorem findCredit_saveAccount (s : DBState) (a : BankAccount) (i : Nat) :
    findCredit (saveAccount s a) i = findCredit s i := rfl

/-- Appending a transaction leaves credit point lookups unchanged. -/
theorem findCredit_createTransaction (s : DBState) (t : Transaction) (i : Nat) :
    findCredit (createTransaction s t) i = findCredit s i := rfl

/-- Writing other tables leaves account point lookups unchanged. -/
theorem findAccount_savePayment (s : DBState) (p : Payment) (i : Nat) :
    findAccount (savePayment s p) i = findAccount s i := rfl

/-- Writing other tables leaves account point lookups unchanged. -/
theorem findAccount_saveCredit (s : DBState) (c : Credit) (i : Nat) :
    findAccount (saveCredit s c) i = findAccount s i := rfl

/-- Appending a transaction leaves account point lookups unchanged. -/
theorem findAccount_createTransaction (s : DBState) (t : Transaction) (i : Nat) :
    findAccount (createTransaction s t) i = findAccount s i := rfl

/-- The PLANNED count ignores account writes. -/
theorem countPlanned_saveAccount (s : DBState) (a : BankAccount) (cid : Nat) :
    countPlanned (saveAccount s a) cid = countPlanned s cid := rfl

/-- The PLANNED count ignores transaction appends. -/
theorem countPlanned_createTransaction (s : DBState) (t : Transaction) (cid : Nat) :
    countPlanned (createTransaction s t) cid = countPlanned s cid := rfl

/-- Saving a payment row that was found makes the lookup return it. -/
theorem find_after_save_payment (X : DBState) (p : Payment) (old : Payment)
    (h : findPayment X p.id = some old) :
    findPayment (savePayment X p) p.id = some p := by
  rw [findPayment_savePayment, h]
  rfl

/-- Saving a credit row that was found makes the lookup return it. -/
theorem find_after_save_credit (X : DBState) (c : Credit) (old : Credit)
    (h : findCredit X c.id = some old) :
    findCredit (saveCredit X c) c.id = some c := by
  rw [findCredit_saveCredit, h]
  rfl

/-- Saving an account row that was found makes the lookup return it. -/
theorem find_after_save_account (X : DBState) (a : BankAccount) (old : BankAccount)
    (h : findAccount X a.id = some old) :
    findAccount (saveAccount X a) a.id = some a := by
  rw [findAccount_saveAccount, h]
  rfl

/-- Claim C6: a successful manual `PayCredit` that resolves the last
PLANNED payment of the credit transitions the credit to PAID and invokes
the Notifier with the holder's email; a notifier failure is only logged —
the payment's success (payment PAID at `now` with the paid amount, account
debited, transaction row appended) stands regardless of `nf` and no error
is returned. -/
theorem C6_payoff_closes_credit_and_notifies (nf : Bool) (now : GoDate)
    (dto : PayCreditDTO) (s : DBState) (credit : Credit) (account : BankAccount)
    (nextP : Payment) (u : User)
    (hv : validPayCreditDTO dto = true)
    (hc : findCredit s dto.creditId = some credit)
    (ha : credit.status = CreditStatus.ACTIVE)
    (hm : credit.accountId = dto.accountId)
    (hacc : findAccount s dto.accountId = some account)
    (hbal : dto.amount ≤ account.balance)
    (hnext : earliestPlanned s dto.creditId = some nextP)
    (hp : findPayment s nextP.id = some nextP)
    (hge : nextP.amount ≤ dto.amount)
    (hlast : ∀ q ∈ s.payments, q.creditId = dto.creditId →
      q.status = PaymentStatus.PLANNED → q.id = nextP.id)
    (hu : findUser s account.holderId = some u) :
    (PayCredit nf now dto s).result = .ok (toPaymentDTO
      { nextP with
          status := PaymentStatus.PAID
        , realPayDate := some now
        , amount := dto.amount }) ∧
    (PayCredit nf now dto s).notifications
      = [{ email := u.email, creditId := credit.id }] ∧
    (PayCredit nf now dto s).loggedNotifierError = nf ∧
    findCredit (PayCredit nf now dto s).state credit.id
      = some { credit with status := CreditStatus.PAID, accountId := dto.accountId } ∧
    findPayment (PayCredit nf now dto s).state nextP.id
      = some { nextP with
          status := PaymentStatus.PAID
        , realPayDate := some now
        , amount := dto.amount } ∧
    findAccount (PayCredit nf now dto s).state account.id
      = some { account with balance := account.balance - dto.amount } ∧
    (PayCredit nf now dto s).state.transactions
      = s.transactions ++ [{ accountId := dto.accountId, amount := -dto.amount
                           , type := TransactionType.WITHDRAW
                           , description := "Credit payment" }] := by
  have hnbal : ¬ (account.balance < dto.amount) := not_lt.mpr hbal
  have hnlt : ¬ (dto.amount < nextP.amount) := not_lt.mpr hge
  have hcid : credit.id = dto.creditId := by
    have h := List.find?_some hc
    simpa using h
  have haid : account.id = dto.accountId := by
    have h := List.find?_some hacc
    simpa using h
  have hcnt : countPlanned (savePayment s
      { nextP with
          status := PaymentStatus.PAID
        , realPayDate := some now
        , amount := dto.amount }) dto.creditId = 0 :=
    countPlanned_savePayment_zero s dto.creditId _ (by simp) hlast
  have hcA : findCredit s credit.id = some credit := by rw [hcid]; exact hc
  have haA : findAccount s account.id = some account := by rw [haid]; exact hacc
  simp only [PayCredit, hv, hc, ha, hm, hacc, hnext, hnlt, hnbal,
    Bool.not_true, Bool.false_eq_true, if_false, ite_false, bne_self_eq_false,
    countPlanned_createTransaction, countPlanned_saveAccount, hcnt,
    Nat.zero_eq, beq_self_eq_true, if_true, ite_true]
  refine ⟨by trivial, ?_, by trivial, ?_, ?_, ?_, by trivial⟩
  · simp [hm, hacc, hu]
  · exact find_after_save_credit _ _ credit hcA
  · show findPayment (savePayment s
        { nextP with
            status := PaymentStatus.PAID
          , realPayDate := some now
          , amount := dto.amount })
        nextP.id = some
        { nextP with
            status := PaymentStatus.PAID
          , realPayDate := some now
          , amount := dto.amount }
    exact find_after_save_payment s _ nextP hp
  · show findAccount (saveAccount (savePayment s
        { nextP with
            status := PaymentStatus.PAID
          , realPayDate := some now
          , amount := dto.amount })
        { account with balance := account.balance - dto.amount })
        account.id = some { account with balance := account.balance - dto.amount }
    exact find_after_save_account _ _ account haA

/-- Claim C6, witness: paying the last PLANNED payment of the one-payment
fixture with a failing notifier — the credit closes, the holder is
notified, the failure is only logged, and the payment result stands. -/
theorem C6_witness :
    (earliestPlanned stateB1 1 = some
      { id := 1, creditId := 1, payDate := ⟨2025, 2, 1⟩, amount := 10000
      , initAmount := 10000, isOverdue := false, status := .PLANNED
      , realPayDate := none } ∧
     (∀ q ∈ stateB1.payments, q.creditId = 1 →
        q.status = PaymentStatus.PLANNED → q.id = 1)) ∧
    ((PayCredit true nowTick { amount := 10000, accountId := 1, creditId := 1 }
        stateB1).result
      = .ok (toPaymentDTO
        { id := 1, creditId := 1, payDate := ⟨2025, 2, 1⟩, amount := 10000
        , initAmount := 10000, isOverdue := false, status := .PAID
        , realPayDate := some nowTick }) ∧
     (PayCredit true nowTick { amount := 10000, accountId := 1, creditId := 1 }
        stateB1).notifications = [{ email := "holder@bank.io", creditId := 1 }] ∧
     (PayCredit true nowTick { amount := 10000, accountId := 1, creditId := 1 }
        stateB1).loggedNotifierError = true ∧
     findCredit (PayCredit true nowTick { amount := 10000, accountId := 1, creditId := 1 }
        stateB1).state 1
      = some { id := 1, rate := 12, accountId := 1, amount := 20000
             , status := .PAID, startDate := ⟨2025, 1, 1⟩
             , endDate := ⟨2025, 3, 1⟩ }) := by
  have H := C6_payoff_closes_credit_and_notifies true nowTick
    { amount := 10000, accountId := 1, creditId := 1 } stateB1
    { id := 1, rate := 12, accountId := 1, amount := 20000
    , status := .ACTIVE, startDate := ⟨2025, 1, 1⟩, endDate := ⟨2025, 3, 1⟩ }
    { id := 1, holderId := 1, balance := 100000 }
    { id := 1, creditId := 1, payDate := ⟨2025, 2, 1⟩, amount := 10000
    , initAmount := 10000, isOverdue := false, status := .PLANNED
    , realPayDate := none }
    ⟨1, "holder@bank.io"⟩
    (by decide) (by decide) rfl rfl (by decide) (by norm_num) (by decide)
    (by decide) (by norm_num) (by decide) (by decide)
  exact ⟨⟨by decide, by decide⟩, H.1, H.2.1, H.2.2.1, H.2.2.2.1⟩

/-- Claim C7: a `Create` request by the account holder (validation passing,
rate available) on an account that already has an ACTIVE credit fails with
the duplicate-active-credit conflict error and leaves the store unchanged —
no credit, payment or transaction rows and no balance change. -/
theorem C7_duplicate_active_credit_conflict (rate : ℚ) (now : GoDate)
    (dto : CreateCreditDTO) (s : DBState) (account : BankAccount)
    (hv : validCreateCreditDTO dto = true)
    (hacc : findAccount s dto.accountId = some account)
    (hown : account.holderId = dto.userId)
    (hconf : (s.credits.find? (fun c =>
        c.accountId == dto.accountId && c.status == CreditStatus.ACTIVE)).isSome
      = true) :
    Create (some rate) now dto s = { state := s, result := .error .activeCreditExists } := by
  simp [Create, hv, hacc, hown, hconf]

/-- Claim C7, witness: creating a second credit on the fixture account that
already holds an ACTIVE credit. -/
theorem C7_witness :
    ((stateB.credits.find? (fun c =>
        c.accountId == 1 && c.status == CreditStatus.ACTIVE)).isSome = true ∧
      findAccount stateB 1 = some { id := 1, holderId := 1, balance := 100000 }) ∧
    Create (some 10) nowTick { accountId := 1, amount := 500, months := 6, userId := 1 }
        stateB
      = { state := stateB, result := .error .activeCreditExists } :=
  ⟨⟨by decide, by decide⟩,
   C7_duplicate_active_credit_conflict 10 nowTick
     { accountId := 1, amount := 500, months := 6, userId := 1 } stateB
     { id := 1, holderId := 1, balance := 100000 }
     (by decide) (by decide) rfl (by decide)⟩
